import Mathlib

/-!
Verification of the VaR_exploration core: a shallow embedding of
`src/risk/var.py`, `src/risk/utils.py` and `src/risk/backtests.py`.

Modelling conventions:
* pandas Series of floats become `List ℚ`; the data-model precondition is
  that series are NaN-free, so `ℚ` carries every value the core inspects.
* A Python float that can be NaN (e.g. a ddof=1 standard deviation of a
  singleton) is `Option ℚ`, with `none` standing for NaN.
* Fallible Python functions return `Except PyErr _`; raising an exception
  is returning `.error`.
* NumPy / SciPy numeric kernels that produce irrational values
  (`np.log`, `np.sqrt` via `pandas.std`, `chi2.cdf`) are abstracted as
  function parameters `logK sqrtK chi2K : ℚ → ℚ`; every theorem below
  quantifies over them, so nothing proved depends on their values.
* The hidden NumPy PRNG stream consumed by `np.random.normal` is made an
  explicit list argument (`zsample` for `parametric_var`, `draws` for
  `monte_carlo_var`): a call of the Python function corresponds to a call
  of the embedded function at the sample the stream happened to produce.
* In-place mutation of a caller's DataFrame is modelled by state passing:
  the embedding of `detect_var_breaches` returns the pair
  (returned object, post-call state of the caller's argument).
-/

namespace VaRExploration

/-- Python exception kinds raised by the embedded core functions. -/
inductive PyErr where
  | valueError : PyErr
  | zeroDivisionError : PyErr
  | keyError : PyErr
deriving DecidableEq, Repr

instance {ε α : Type _} [DecidableEq ε] [DecidableEq α] : DecidableEq (Except ε α) :=
  fun x y =>
    match x, y with
    | .ok a, .ok b =>
      if h : a = b then isTrue (by rw [h])
      else isFalse (fun he => h (Except.ok.inj he))
    | .error a, .error b =>
      if h : a = b then isTrue (by rw [h])
      else isFalse (fun he => h (Except.error.inj he))
    | .ok _, .error _ => isFalse (fun he => Except.noConfusion he)
    | .error _, .ok _ => isFalse (fun he => Except.noConfusion he)

/-- Insert a rational into an already sorted list (ascending). -/
def insertRat (x : ℚ) : List ℚ → List ℚ
  | [] => [x]
  | y :: ys => if x ≤ y then x :: y :: ys else y :: insertRat x ys

/-- Ascending insertion sort on rationals (the order NumPy sorts into
before interpolating a percentile). -/
def sortRat (xs : List ℚ) : List ℚ := xs.foldr insertRat []

/-- `np.percentile(xs, q)` with the default linear interpolation between
order statistics: position `h = (n-1)·q/100` in the sorted data, result
`s[⌊h⌋] + (h-⌊h⌋)·(s[⌊h⌋+1] - s[⌊h⌋])`.  Total function; callers below
guard the empty case exactly where NumPy would raise. -/
def np_percentile (xs : List ℚ) (q : ℚ) : ℚ :=
  let s := sortRat xs
  let n := s.length
  let h : ℚ := ((n : ℚ) - 1) * q / 100
  let i : ℕ := (⌊h⌋).toNat
  let lo := s.getD i 0
  let hi := s.getD (i + 1) lo
  lo + (h - (⌊h⌋ : ℚ)) * (hi - lo)

/-- `Series.mean()`. -/
def seriesMean (xs : List ℚ) : ℚ := xs.sum / xs.length

/-- `Series.std()` squared: the ddof=1 sample variance pandas takes the
square root of.  pandas yields NaN (`none`) when fewer than two
observations exist. -/
def sampleVar (xs : List ℚ) : Option ℚ :=
  if 2 ≤ xs.length then
    some ((xs.map (fun x => (x - seriesMean xs) ^ 2)).sum / ((xs.length : ℚ) - 1))
  else none

/-- `historical_var` (src/risk/var.py lines 7-22): raise ValueError on an
empty series, else the absolute value of the empirical
`(1-confidence)·100`-th percentile. -/
def historical_var (returns : List ℚ) (confidence_level : ℚ) : Except PyErr ℚ :=
  if returns = [] then .error .valueError
  else .ok |np_percentile returns ((1 - confidence_level) * 100)|

/-- `parametric_var` (src/risk/var.py lines 25-44): raise ValueError on an
empty series; otherwise `z = |percentile(zsample, (1-c)·100)|` where
`zsample` is the `np.random.normal(0, 1, 100000)` draw of this call, and
the result is `|mean - z·std|`.  `std` is NaN (`none`) on a singleton
series and the NaN propagates through `mean - z·std` and `abs`. -/
def parametric_var (sqrtK : ℚ → ℚ) (zsample : List ℚ)
    (returns : List ℚ) (confidence_level : ℚ) : Except PyErr (Option ℚ) :=
  if returns = [] then .error .valueError
  else
    let μ := seriesMean returns
    let σ? := (sampleVar returns).map sqrtK
    let z := |np_percentile zsample ((1 - confidence_level) * 100)|
    .ok (σ?.map (fun σ => |μ - z * σ|))

/-- `monte_carlo_var` (src/risk/var.py lines 47-68): raise ValueError on an
empty series, else the absolute `(1-c)·100`-th percentile of the simulated
draws.  The sample mean and std of `returns` only parameterise the
distribution the PRNG draws from, so they do not appear in the
deterministic skeleton; `draws` is the `np.random.normal(mean, std,
simulations)` sample of this call. -/
def monte_carlo_var (draws : List ℚ)
    (returns : List ℚ) (confidence_level : ℚ) : Except PyErr ℚ :=
  if returns = [] then .error .valueError
  else .ok |np_percentile draws ((1 - confidence_level) * 100)|

/-- Result record of `kupiec_pof_test`: `LR` and `p_value` are `Option ℚ`
because the source deliberately reports them as NaN (`none`) at the
degenerate boundary. -/
structure KupiecResult where
  n : ℕ
  x : ℕ
  p_hat : ℚ
  LR : Option ℚ
  p_value : Option ℚ
deriving DecidableEq, Repr

/-- Number of breaches, `int(breaches.sum())`. -/
def breachSum (breaches : List Bool) : ℕ :=
  (breaches.map (fun b => if b then (1 : ℕ) else 0)).sum

/-- `kupiec_pof_test` (src/risk/backtests.py lines 6-42).
`p_hat = x / n` is evaluated with no guard, so `n = 0` raises
ZeroDivisionError.  If `p_hat ∈ {0, 1}` both `LR` and `p_value` are NaN
(`none`); otherwise `LR = -2·log(num/den)` and `p_value = 1 -
chi2cdf(LR)`, with `logK`/`chi2K` the abstract `np.log` / `chi2.cdf(·,
df=1)` kernels. -/
def kupiec_pof_test (logK chi2K : ℚ → ℚ)
    (breaches : List Bool) (alpha : ℚ) : Except PyErr KupiecResult :=
  let n := breaches.length
  let x := breachSum breaches
  let p : ℚ := 1 - alpha
  if n = 0 then .error .zeroDivisionError
  else
    let p_hat : ℚ := (x : ℚ) / (n : ℚ)
    if p_hat = 0 ∨ p_hat = 1 then
      .ok ⟨n, x, p_hat, none, none⟩
    else
      let num := (1 - p) ^ (n - x) * p ^ x
      let den := (1 - p_hat) ^ (n - x) * p_hat ^ x
      let LR := -2 * logK (num / den)
      .ok ⟨n, x, p_hat, some LR, some (1 - chi2K LR)⟩

/-- Result record of `christoffersen_independence_test`.  `pi` is NaN
(`none`) when the sequence has no transitions (NumPy `0/0`); `LR` and
`p_value` inherit that NaN. -/
structure ChristoffersenResult where
  N00 : ℕ
  N01 : ℕ
  N10 : ℕ
  N11 : ℕ
  pi0 : ℚ
  pi1 : ℚ
  pi : Option ℚ
  LR : Option ℚ
  p_value : Option ℚ
deriving DecidableEq, Repr

/-- `christoffersen_independence_test` (src/risk/backtests.py lines
45-95): transition counts over consecutive pairs `zip b[:-1] b[1:]`,
conditional transition probabilities (0 on an empty denominator, as the
source guards), pooled probability, and the likelihood-ratio statistic
via the abstract `np.log` / `chi2.cdf` kernels. -/
def christoffersen_independence_test (logK chi2K : ℚ → ℚ)
    (breaches : List Bool) : ChristoffersenResult :=
  let pairs := breaches.zip breaches.tail
  let N00 := (pairs.filter (fun pr => !pr.1 && !pr.2)).length
  let N01 := (pairs.filter (fun pr => !pr.1 && pr.2)).length
  let N10 := (pairs.filter (fun pr => pr.1 && !pr.2)).length
  let N11 := (pairs.filter (fun pr => pr.1 && pr.2)).length
  let pi0 : ℚ := if N00 + N01 > 0 then (N01 : ℚ) / ((N00 : ℚ) + N01) else 0
  let pi1 : ℚ := if N10 + N11 > 0 then (N11 : ℚ) / ((N10 : ℚ) + N11) else 0
  let tot := N00 + N01 + N10 + N11
  let pi : Option ℚ :=
    if tot > 0 then some (((N01 : ℚ) + N11) / (tot : ℚ)) else none
  let ll := fun (n0 n1 : ℕ) (p : ℚ) => (n0 : ℚ) * logK (1 - p) + (n1 : ℚ) * logK p
  let LR : Option ℚ := pi.map (fun π =>
    -2 * (ll (N00 + N10) (N01 + N11) π - (ll N00 N01 pi0 + ll N10 N11 pi1)))
  let p_value : Option ℚ := LR.map (fun l => 1 - chi2K l)
  ⟨N00, N01, N10, N11, pi0, pi1, pi, LR, p_value⟩

/-- `expected_shortfall` (src/risk/backtests.py lines 98-121): the signed
`(1-alpha)·100`-th percentile as threshold, then the negated mean of the
returns at or below it, `0.0` if that tail is empty.  `np.percentile`
raises on an empty array, modelled as ValueError. -/
def expected_shortfall (returns : List ℚ) (alpha : ℚ) : Except PyErr ℚ :=
  if returns = [] then .error .valueError
  else
    let var_level := np_percentile returns ((1 - alpha) * 100)
    let tail := returns.filter (fun r => r ≤ var_level)
    .ok (if tail.length = 0 then 0 else -(tail.sum / (tail.length : ℚ)))

/-- `calculate_forward_log_returns` (src/risk/utils.py lines 135-150):
`np.log(prices.shift(-days_forward) / prices).dropna()`.  Index `t` of
the shifted series holds `prices[t + days_forward]` when that index
exists and NaN otherwise; the elementwise ratio/log keeps NaN at those
positions and `dropna` removes them.  `logK` is the abstract `np.log`
kernel (prices are positive per the data model, so the argument is in
its domain). -/
def calculate_forward_log_returns (logK : ℚ → ℚ)
    (prices : List ℚ) (days_forward : ℕ) : List ℚ :=
  (List.range prices.length).filterMap (fun t =>
    (prices[t + days_forward]?).map (fun fwd => logK (fwd / prices.getD t 0)))

/-- One pandas DataFrame column: float-valued or bool-valued. -/
inductive PyCol where
  | nums : List ℚ → PyCol
  | bools : List Bool → PyCol
deriving DecidableEq, Repr

/-- A pandas DataFrame as an ordered association list of named columns. -/
structure DataFrame where
  cols : List (String × PyCol)
deriving DecidableEq, Repr

/-- Column lookup, `df[name]` (read). -/
def DataFrame.findCol (df : DataFrame) (name : String) : Option PyCol :=
  df.cols.lookup name

/-- Helper for column assignment on the underlying association list:
overwrite the first binding of `n`, else append a new binding. -/
def setColAux : List (String × PyCol) → String → PyCol → List (String × PyCol)
  | [], n, c => [(n, c)]
  | (k, v) :: rest, n, c =>
    if k = n then (n, c) :: rest else (k, v) :: setColAux rest n c

/-- Column assignment, `df[name] = series`: overwrite an existing column
in place, else append a new one at the end. -/
def DataFrame.setCol (df : DataFrame) (name : String) (col : PyCol) : DataFrame :=
  ⟨setColAux df.cols name col⟩

/-- The elementwise breach predicate of src/risk/utils.py line 310:
`(return < threshold) AND (return < 0)`. -/
def breachFlag (r v : ℚ) : Bool := decide (r < v) && decide (r < 0)

/-- `detect_var_breaches` (src/risk/utils.py lines 285-311):
`df[breach_col] = (df[return_col] < df[var_col]) & (df[return_col] < 0);
return df`.  The assignment mutates the caller's DataFrame and the very
same object is returned, so the embedding returns the pair (returned
object, post-call state of the caller's argument) — both are the mutated
table.  A missing or non-numeric column is a lookup failure (KeyError). -/
def detect_var_breaches (df : DataFrame)
    (return_col var_col breach_col : String) : Except PyErr (DataFrame × DataFrame) :=
  match df.findCol return_col, df.findCol var_col with
  | some (.nums rs), some (.nums vs) =>
    let flags := List.zipWith breachFlag rs vs
    let mutated := df.setCol breach_col (.bools flags)
    .ok (mutated, mutated)
  | _, _ => .error .keyError

/-- Python 3 `round` to an integer: round half to even. -/
def roundHalfEven (q : ℚ) : ℤ :=
  let f := ⌊q⌋
  let r := q - (f : ℚ)
  if r < 1 / 2 then f
  else if 1 / 2 < r then f + 1
  else if f % 2 = 0 then f else f + 1

/-- Python `round(q, 3)`. -/
def round3 (q : ℚ) : ℚ := (roundHalfEven (q * 1000) : ℚ) / 1000

/-- Summary record of `summarize_var_breaches`; `percentage` is `none`
when the mean of an empty column is NaN. -/
structure BreachSummary where
  count : ℕ
  percentage : Option ℚ
deriving DecidableEq, Repr

/-- `summarize_var_breaches` (src/risk/utils.py lines 314-335) applied to
the boolean breach column: `count = int(col.sum())`, `percentage =
float(round(col.mean(), 3))`.  pandas `.mean()` of an empty column is NaN
(no exception is raised), and `round`/`float` keep NaN. -/
def summarize_var_breaches (flags : List Bool) : Except PyErr BreachSummary :=
  let count := breachSum flags
  let percentage : Option ℚ :=
    if flags.length = 0 then none
    else some (round3 ((count : ℚ) / (flags.length : ℚ)))
  .ok ⟨count, percentage⟩

/-! ### Helper lemmas -/

theorem breachSum_eq_count (bs : List Bool) : breachSum bs = bs.count true := by
  induction bs with
  | nil => rfl
  | cons b rest ih =>
    cases b <;> simp [breachSum, List.count_cons] at ih ⊢ <;> omega

theorem boolPairFilterPartition (l : List (Bool × Bool)) :
    (l.filter (fun pr => !pr.1 && !pr.2)).length
      + (l.filter (fun pr => !pr.1 && pr.2)).length
      + (l.filter (fun pr => pr.1 && !pr.2)).length
      + (l.filter (fun pr => pr.1 && pr.2)).length = l.length := by
  induction l with
  | nil => rfl
  | cons pr rest ih =>
    obtain ⟨b1, b2⟩ := pr
    cases b1 <;> cases b2 <;> simp [List.filter_cons] <;> omega

/-! ### Claim theorems -/

/-- C10: on the empty breach flag sequence, `kupiec_pof_test` never
returns a result record: the observed rate `x / n` is computed with no
guard for `n = 0`, so the call raises ZeroDivisionError — neither the
EmptyInputError (ValueError) of the estimators nor the NaN sentinel of
the degenerate branch. -/
theorem C10_kupiec_empty_raises_division_by_zero (logK chi2K : ℚ → ℚ) (alpha : ℚ) :
    kupiec_pof_test logK chi2K [] alpha = .error .zeroDivisionError ∧
    (∀ res : KupiecResult, kupiec_pof_test logK chi2K [] alpha ≠ .ok res) ∧
    kupiec_pof_test logK chi2K [] alpha ≠ .error .valueError := by
  refine ⟨rfl, ?_, ?_⟩
  · intro res h
    simp [kupiec_pof_test] at h
  · intro h
    simp [kupiec_pof_test] at h

/-- C4: for a non-empty breach flag sequence whose observed rate
`p̂ = x/n` is exactly 0 or exactly 1, the Kupiec POF test does not raise:
it returns a record whose `LR` and `p_value` are NaN (`none`) while `n`,
`x` and `p_hat` keep their ordinary values. -/
theorem C4_kupiec_degenerate_rate_yields_nan (logK chi2K : ℚ → ℚ)
    (bs : List Bool) (alpha : ℚ) (hne : bs ≠ [])
    (hdeg : (breachSum bs : ℚ) / (bs.length : ℚ) = 0 ∨
            (breachSum bs : ℚ) / (bs.length : ℚ) = 1) :
    kupiec_pof_test logK chi2K bs alpha =
      .ok ⟨bs.length, breachSum bs, (breachSum bs : ℚ) / (bs.length : ℚ), none, none⟩ := by
  have hlen : bs.length ≠ 0 := by simpa using hne
  simp only [kupiec_pof_test]
  rw [if_neg hlen, if_pos hdeg]

/-- C4 witness: the all-breach singleton sequence has `p̂ = 1` and the
test reports `n = 1`, `x = 1`, `p_hat = 1` with NaN `LR` and `p_value`. -/
theorem C4_witness :
    kupiec_pof_test id id [true] (1/2) =
      .ok ⟨[true].length, breachSum [true],
           (breachSum [true] : ℚ) / (([true].length : ℕ) : ℚ), none, none⟩ :=
  C4_kupiec_degenerate_rate_yields_nan id id [true] (1/2) (by simp)
    (by norm_num [breachSum])

/-- C8: for every breach flag sequence of length at least 2, the four
transition counts built by the Christoffersen independence test sum to
`length - 1` (each is a `ℕ`, hence non-negative). -/
theorem C8_christoffersen_transition_counts_sum (logK chi2K : ℚ → ℚ)
    (bs : List Bool) (hlen : 2 ≤ bs.length) :
    (christoffersen_independence_test logK chi2K bs).N00
      + (christoffersen_independence_test logK chi2K bs).N01
      + (christoffersen_independence_test logK chi2K bs).N10
      + (christoffersen_independence_test logK chi2K bs).N11
      = bs.length - 1 := by
  simp only [christoffersen_independence_test]
  rw [boolPairFilterPartition (bs.zip bs.tail), List.length_zip, List.length_tail]
  omega

/-- C8 witness: the sequence `[false, true]` has one transition and the
counts sum to 1. -/
theorem C8_witness :
    (christoffersen_independence_test id id [false, true]).N00
      + (christoffersen_independence_test id id [false, true]).N01
      + (christoffersen_independence_test id id [false, true]).N10
      + (christoffersen_independence_test id id [false, true]).N11
      = [false, true].length - 1 :=
  C8_christoffersen_transition_counts_sum id id [false, true] (by simp)

/-- C1: the claim says `parametric_var` is deterministic with a fixed
closed-form z-score, but the source computes the z-score as
`np.abs(np.percentile(np.random.normal(0, 1, 100000), (1-c)*100))` — an
empirical quantile of a fresh PRNG sample.  With the PRNG stream explicit
(`zsample`), two calls with the identical inputs `returns = [0, 1, 2]`,
`confidence = 0.95` but different admissible sample draws return
different outputs (`std = 1` here, taking `sqrtK = id` on the exact
sample variance 1). -/
theorem C1_parametric_var_depends_on_prng_stream :
    parametric_var id [-2] [0, 1, 2] (19/20) = .ok (some 1) ∧
    parametric_var id [-1] [0, 1, 2] (19/20) = .ok (some 0) ∧
    (Except.ok (some (1 : ℚ)) : Except PyErr (Option ℚ)) ≠ .ok (some 0) := by
  refine ⟨?_, ?_, by simp⟩ <;>
    norm_num [parametric_var, np_percentile, sortRat, insertRat, List.foldr,
      seriesMean, sampleVar, List.cons_ne_nil, abs_of_nonneg, abs_of_nonpos]

/-- C3 counterexample: on the empty flag sequence
`summarize_var_breaches` does not fail with EmptyInputError — pandas
`.mean()` of an empty column is NaN, so the call returns a record with
count 0 and NaN percentage. -/
theorem C3_summarize_empty_returns_record :
    summarize_var_breaches [] = .ok ⟨0, none⟩ := rfl

/-- C3 amended: for every non-empty flag sequence the summary has
`count` = number of true flags and rate = `count/length` rounded to 3
decimals (Python half-even rounding); on the empty sequence it does not
raise but returns count 0 with a NaN rate. -/
theorem C3_summarize_count_and_rounded_rate :
    (∀ flags : List Bool, flags ≠ [] →
      summarize_var_breaches flags =
        .ok ⟨flags.count true,
             some (round3 ((flags.count true : ℚ) / (flags.length : ℚ)))⟩) ∧
    summarize_var_breaches [] = .ok ⟨0, none⟩ := by
  constructor
  · intro flags h
    have hlen : flags.length ≠ 0 := by simpa using h
    simp [summarize_var_breaches, breachSum_eq_count, hlen]
  · rfl

/-- C3 witness: one breach out of three flags gives count 1 and rate
0.333. -/
theorem C3_witness :
    summarize_var_breaches [false, true, false] = .ok ⟨1, some (333/1000)⟩ := by
  have h := C3_summarize_count_and_rounded_rate.1 [false, true, false] (by simp)
  rw [h]
  norm_num [round3, roundHalfEven]

/-- C5 counterexample: `parametric_var` on the non-empty singleton series
`[0.01]` returns NaN, not a non-negative float: pandas `.std()` uses
ddof=1 and is NaN on one observation, and the NaN propagates through
`|mean - z·std|`. -/
theorem C5_parametric_var_singleton_nan :
    parametric_var id [-1] [1/100] (19/20) = .ok none := by
  norm_num [parametric_var, np_percentile, sortRat, insertRat, List.foldr,
    seriesMean, sampleVar, List.cons_ne_nil]

/-- C5 amended: for confidence in (0,1), `historical_var` returns a
non-negative value on every non-empty series; `parametric_var` does so on
every series of length ≥ 2 (on a singleton its ddof=1 std is NaN and the
NaN propagates); `monte_carlo_var` does so whenever its simulated draw
sample is non-empty (and NaN-free, which requires length ≥ 2 as well). -/
theorem C5_var_estimators_nonneg :
    (∀ (r : List ℚ) (c : ℚ), r ≠ [] → 0 < c → c < 1 →
      ∃ v, historical_var r c = .ok v ∧ 0 ≤ v) ∧
    (∀ (sqrtK : ℚ → ℚ) (zs r : List ℚ) (c : ℚ), 2 ≤ r.length → 0 < c → c < 1 →
      ∃ v, parametric_var sqrtK zs r c = .ok (some v) ∧ 0 ≤ v) ∧
    (∀ (draws r : List ℚ) (c : ℚ), r ≠ [] → draws ≠ [] → 0 < c → c < 1 →
      ∃ v, monte_carlo_var draws r c = .ok v ∧ 0 ≤ v) := by
  refine ⟨?_, ?_, ?_⟩
  · intro r c h _ _
    exact ⟨|np_percentile r ((1 - c) * 100)|, by simp [historical_var, h], abs_nonneg _⟩
  · intro sqrtK zs r c h2 _ _
    have hne : r ≠ [] := by
      intro he
      subst he
      simp at h2
    have hvar : sampleVar r =
        some ((r.map (fun x => (x - seriesMean r) ^ 2)).sum / ((r.length : ℚ) - 1)) := by
      simp [sampleVar, h2]
    refine ⟨|seriesMean r - |np_percentile zs ((1 - c) * 100)| *
      sqrtK ((r.map (fun x => (x - seriesMean r) ^ 2)).sum / ((r.length : ℚ) - 1))|,
      ?_, abs_nonneg _⟩
    simp [parametric_var, hne, hvar]
  · intro draws r c h _ _ _
    exact ⟨|np_percentile draws ((1 - c) * 100)|, by simp [monte_carlo_var, h], abs_nonneg _⟩

/-- C5 witness: the three estimators evaluated on concrete admissible
inputs, each yielding a non-negative result. -/
theorem C5_witness :
    (∃ v, historical_var [1, 2] (1/2) = .ok v ∧ 0 ≤ v) ∧
    (∃ v, parametric_var id [-1] [1, 2] (1/2) = .ok (some v) ∧ 0 ≤ v) ∧
    (∃ v, monte_carlo_var [-1] [1, 2] (1/2) = .ok v ∧ 0 ≤ v) :=
  ⟨C5_var_estimators_nonneg.1 [1, 2] (1/2) (by simp) (by norm_num) (by norm_num),
   C5_var_estimators_nonneg.2.1 id [-1] [1, 2] (1/2) (by simp) (by norm_num) (by norm_num),
   C5_var_estimators_nonneg.2.2 [-1] [1, 2] (1/2) (by simp) (by simp) (by norm_num) (by norm_num)⟩

/-- C7: for every non-empty return series, `expected_shortfall` equals
the negated mean of the returns at or below the signed linear-interpolation
percentile at `(1-alpha)·100` (not its absolute value), and equals
exactly 0 when no returns lie at or below that threshold; on
`[-0.02, 0.01, -0.05, -0.10]` at `alpha = 0.95` it is exactly 0.10. -/
theorem C7_expected_shortfall_tail_mean (r : List ℚ) (alpha : ℚ) (h : r ≠ []) :
    (∀ tail : List ℚ,
      tail = r.filter (fun x => x ≤ np_percentile r ((1 - alpha) * 100)) →
      (tail = [] → expected_shortfall r alpha = .ok 0) ∧
      (tail ≠ [] → expected_shortfall r alpha = .ok (-(tail.sum / (tail.length : ℚ))))) ∧
    expected_shortfall [-2/100, 1/100, -5/100, -1/10] (19/20) = .ok (1/10) := by
  constructor
  · intro tail ht
    constructor
    · intro hemp
      rw [ht] at hemp
      simp [expected_shortfall, h, hemp]
    · intro hne
      rw [ht] at hne
      have hlen : (r.filter (fun x =>
          x ≤ np_percentile r ((1 - alpha) * 100))).length ≠ 0 := by
        simpa [List.length_eq_zero] using hne
      subst ht
      simp [expected_shortfall, h, hlen]
  · norm_num [expected_shortfall, np_percentile, sortRat, insertRat, List.foldr,
      List.cons_ne_nil]

/-- C7 witness: the spec example itself. -/
theorem C7_witness :
    expected_shortfall [-2/100, 1/100, -5/100, -1/10] (19/20) = .ok (1/10) :=
  (C7_expected_shortfall_tail_mean [-2/100, 1/100, -5/100, -1/10] (19/20) (by simp)).2

/-- Column name used in the concrete DataFrames below. -/
def retCol : String := "ret"

/-- Column name used in the concrete DataFrames below. -/
def varCol : String := "var_10d"

/-- Column name used in the concrete DataFrames below. -/
def breachCol : String := "breach"

theorem lookup_setColAux_self (l : List (String × PyCol)) (n : String) (c : PyCol) :
    (setColAux l n c).lookup n = some c := by
  induction l with
  | nil => simp [setColAux, List.lookup]
  | cons kv rest ih =>
    obtain ⟨k, v⟩ := kv
    by_cases hk : k = n
    · subst hk
      simp [setColAux, List.lookup]
    · have hbeq : (n == k) = false := beq_eq_false_iff_ne.mpr (Ne.symm hk)
      simpa [setColAux, hk, List.lookup, hbeq] using ih

theorem lookup_setColAux_ne (l : List (String × PyCol)) (n m : String) (c : PyCol)
    (h : m ≠ n) : (setColAux l n c).lookup m = l.lookup m := by
  have hmn : (m == n) = false := beq_eq_false_iff_ne.mpr h
  induction l with
  | nil => simp [setColAux, List.lookup, hmn]
  | cons kv rest ih =>
    obtain ⟨k, v⟩ := kv
    by_cases hk : k = n
    · subst hk
      simp [setColAux, List.lookup, hmn]
    · by_cases hm : m = k
      · subst hm
        simp [setColAux, hk, List.lookup]
      · have hbeq : (m == k) = false := beq_eq_false_iff_ne.mpr hm
        simpa [setColAux, hk, List.lookup, hbeq] using ih

/-- What `detect_var_breaches` does when both input columns exist: it
returns the caller's table with the breach column written into it, the
returned object and the post-call state of the argument are the same
mutated table, the breach column holds the elementwise flags, and every
other column is untouched. -/
theorem detect_var_breaches_spec (df : DataFrame) (rc vc bc : String)
    (rs vs : List ℚ) (hr : df.findCol rc = some (.nums rs))
    (hv : df.findCol vc = some (.nums vs)) :
    ∃ out, detect_var_breaches df rc vc bc = .ok (out, out) ∧
      out.findCol bc = some (.bools (List.zipWith breachFlag rs vs)) ∧
      (∀ c, c ≠ bc → out.findCol c = df.findCol c) := by
  refine ⟨df.setCol bc (.bools (List.zipWith breachFlag rs vs)), ?_, ?_, ?_⟩
  · simp [detect_var_breaches, hr, hv]
  · simp [DataFrame.findCol, DataFrame.setCol, lookup_setColAux_self]
  · intro c hc
    simp [DataFrame.findCol, DataFrame.setCol, lookup_setColAux_ne _ _ _ _ hc]

/-- C2 counterexample: the claim says the caller-owned input table is
left unchanged, but `detect_var_breaches` assigns the breach column into
the caller's table and returns that same object: after the call the
post-state of the argument carries the new column, so it differs from
the original input. -/
theorem C2_detect_var_breaches_mutates_input :
    detect_var_breaches
        (DataFrame.mk [(retCol, PyCol.nums [1, -10, -2]), (varCol, PyCol.nums [-1, -5, -5])])
        retCol varCol breachCol =
      .ok (DataFrame.mk [(retCol, PyCol.nums [1, -10, -2]), (varCol, PyCol.nums [-1, -5, -5]),
             (breachCol, PyCol.bools [false, true, false])],
           DataFrame.mk [(retCol, PyCol.nums [1, -10, -2]), (varCol, PyCol.nums [-1, -5, -5]),
             (breachCol, PyCol.bools [false, true, false])]) ∧
    DataFrame.mk [(retCol, PyCol.nums [1, -10, -2]), (varCol, PyCol.nums [-1, -5, -5]),
        (breachCol, PyCol.bools [false, true, false])] ≠
      DataFrame.mk [(retCol, PyCol.nums [1, -10, -2]), (varCol, PyCol.nums [-1, -5, -5])] := by
  exact ⟨by decide, by decide⟩

/-- C2 amended: `detect_var_breaches` computes the breach flags as
specified, but it stores them as a new column on the caller's own table
and returns that very table: the output aliases the mutated input
(returned object = post-call argument state).  All other columns are
preserved. -/
theorem C2_detect_var_breaches_inplace (df : DataFrame) (rc vc bc : String)
    (rs vs : List ℚ) (hr : df.findCol rc = some (.nums rs))
    (hv : df.findCol vc = some (.nums vs)) :
    ∃ out, detect_var_breaches df rc vc bc = .ok (out, out) ∧
      out.findCol bc = some (.bools (List.zipWith breachFlag rs vs)) ∧
      (∀ c, c ≠ bc → out.findCol c = df.findCol c) :=
  detect_var_breaches_spec df rc vc bc rs vs hr hv

/-- C2 witness: the in-place description at a concrete two-column table. -/
theorem C2_witness :
    ∃ out, detect_var_breaches
        (DataFrame.mk [(retCol, PyCol.nums [5, -10]), (varCol, PyCol.nums [-1, -5])])
        retCol varCol breachCol = .ok (out, out) ∧
      out.findCol breachCol =
        some (.bools (List.zipWith breachFlag [5, -10] [-1, -5])) ∧
      (∀ c, c ≠ breachCol →
        out.findCol c =
          (DataFrame.mk [(retCol, PyCol.nums [5, -10]),
            (varCol, PyCol.nums [-1, -5])]).findCol c) :=
  C2_detect_var_breaches_inplace _ retCol varCol breachCol [5, -10] [-1, -5]
    (by simp [DataFrame.findCol, List.lookup])
    (by simp [DataFrame.findCol, List.lookup, retCol, varCol])

theorem getD_zipWith_of_lt {α β γ : Type} (f : α → β → γ) (as : List α) (bs : List β)
    (i : ℕ) (d : γ) (da : α) (db : β) (h1 : i < as.length) (h2 : i < bs.length) :
    (List.zipWith f as bs).getD i d = f (as.getD i da) (bs.getD i db) := by
  have hz : i < (List.zipWith f as bs).length := by
    rw [List.length_zipWith]
    exact lt_min h1 h2
  rw [List.getD_eq_getElem?_getD, List.getElem?_eq_getElem hz, Option.getD_some,
    List.getElem_zipWith]
  congr 1
  · rw [List.getD_eq_getElem?_getD, List.getElem?_eq_getElem h1, Option.getD_some]
  · rw [List.getD_eq_getElem?_getD, List.getElem?_eq_getElem h2, Option.getD_some]

/-- C6: on a table with aligned return and threshold columns,
`detect_var_breaches` flags index `i` exactly when
`returns[i] < thresholds[i]` and `returns[i] < 0`; consequently a
breach is only ever triggered by an actual loss — a positive threshold
alone (with a non-negative return) can never trigger one, which is what
makes the second conjunct a deliberate, non-redundant guard. -/
theorem C6_breach_flag_two_part_guard (rs vs : List ℚ) (i : ℕ)
    (h1 : i < rs.length) (h2 : i < vs.length) :
    ∃ out, detect_var_breaches
        (DataFrame.mk [(retCol, PyCol.nums rs), (varCol, PyCol.nums vs)])
        retCol varCol breachCol = .ok (out, out) ∧
      out.findCol breachCol = some (.bools (List.zipWith breachFlag rs vs)) ∧
      ((List.zipWith breachFlag rs vs).getD i false = true ↔
        (rs.getD i 0 < vs.getD i 0 ∧ rs.getD i 0 < 0)) ∧
      ((List.zipWith breachFlag rs vs).getD i false = true → rs.getD i 0 < 0) := by
  obtain ⟨out, hdet, hcol, _⟩ := detect_var_breaches_spec
    (DataFrame.mk [(retCol, PyCol.nums rs), (varCol, PyCol.nums vs)])
    retCol varCol breachCol rs vs
    (by simp [DataFrame.findCol, List.lookup])
    (by simp [DataFrame.findCol, List.lookup, retCol, varCol])
  have hiff : (List.zipWith breachFlag rs vs).getD i false = true ↔
      (rs.getD i 0 < vs.getD i 0 ∧ rs.getD i 0 < 0) := by
    rw [getD_zipWith_of_lt breachFlag rs vs i false 0 0 h1 h2]
    simp [breachFlag]
  exact ⟨out, hdet, hcol, hiff, fun hf => (hiff.mp hf).2⟩

/-- C6 witness: returns `[1, -10, -2]` against thresholds `[-1, -5, -5]`
at index 1. -/
theorem C6_witness :
    ∃ out, detect_var_breaches
        (DataFrame.mk [(retCol, PyCol.nums [1, -10, -2]), (varCol, PyCol.nums [-1, -5, -5])])
        retCol varCol breachCol = .ok (out, out) ∧
      out.findCol breachCol =
        some (.bools (List.zipWith breachFlag [1, -10, -2] [-1, -5, -5])) ∧
      ((List.zipWith breachFlag [1, -10, -2] [-1, -5, -5]).getD 1 false = true ↔
        (([1, -10, -2] : List ℚ).getD 1 0 < ([-1, -5, -5] : List ℚ).getD 1 0 ∧
          ([1, -10, -2] : List ℚ).getD 1 0 < 0)) ∧
      ((List.zipWith breachFlag [1, -10, -2] [-1, -5, -5]).getD 1 false = true →
        ([1, -10, -2] : List ℚ).getD 1 0 < 0) :=
  C6_breach_flag_two_part_guard [1, -10, -2] [-1, -5, -5] 1 (by simp) (by simp)

theorem range_filterMap_ifLt {β : Type} (n m : ℕ) (g : ℕ → β) :
    (List.range n).filterMap (fun t => if t < m then some (g t) else none) =
      (List.range (min m n)).map g := by
  induction n with
  | zero => simp
  | succ k ih =>
    rw [List.range_succ, List.filterMap_append, ih]
    by_cases hk : k < m
    · have e1 : min m (k + 1) = k + 1 := by omega
      have e2 : min m k = k := by omega
      rw [e1, e2, List.range_succ, List.map_append]
      simp [hk]
    · have e1 : min m (k + 1) = min m k := by omega
      rw [e1]
      simp [hk]

/-- C9: for `0 < horizonDays < length`, `calculate_forward_log_returns`
returns `log(p[t+horizonDays] / p[t])` for `t = 0 .. n-h-1`: the final
`horizonDays` positions are NaN after the shift and are dropped, so the
output has exactly `n - horizonDays` elements. -/
theorem C9_forward_log_returns_drop_tail (logK : ℚ → ℚ) (ps : List ℚ) (hd : ℕ)
    (h0 : 0 < hd) (hlt : hd < ps.length) (hpos : ∀ x ∈ ps, 0 < x) :
    calculate_forward_log_returns logK ps hd =
      (List.range (ps.length - hd)).map
        (fun t => logK (ps.getD (t + hd) 0 / ps.getD t 0)) ∧
    (calculate_forward_log_returns logK ps hd).length = ps.length - hd := by
  have key : calculate_forward_log_returns logK ps hd =
      (List.range ps.length).filterMap (fun t =>
        if t < ps.length - hd then
          some (logK (ps.getD (t + hd) 0 / ps.getD t 0)) else none) := by
    unfold calculate_forward_log_returns
    apply List.filterMap_congr
    intro t _
    by_cases hc : t + hd < ps.length
    · have ht : t < ps.length - hd := by omega
      rw [List.getElem?_eq_getElem hc, if_pos ht]
      simp [List.getD_eq_getElem?_getD, List.getElem?_eq_getElem hc]
    · have ht : ¬ t < ps.length - hd := by omega
      have hnone : ps[t + hd]? = none := by
        rw [List.getElem?_eq_none_iff]
        omega
      rw [hnone, if_neg ht]
      rfl
  have hmin : min (ps.length - hd) ps.length = ps.length - hd := by omega
  constructor
  · rw [key, range_filterMap_ifLt, hmin]
  · rw [key, range_filterMap_ifLt, hmin, List.length_map, List.length_range]

/-- C9 witness: prices `[100, 110, 121]` with horizon 2 yield the single
value `log(121/100)` (here with the identity log kernel: `121/100`). -/
theorem C9_witness :
    calculate_forward_log_returns id [100, 110, 121] 2 = [(121 : ℚ)/100] := by
  have h := (C9_forward_log_returns_drop_tail id [100, 110, 121] 2
    (by norm_num) (by norm_num) (by norm_num)).1
  rw [h]
  norm_num [List.range_succ]

end VaRExploration
